import Mathlib

/-
Shallow embedding of the checkout saga of the ecommerceBackend repository
(src/orders/models.py, src/orders/views.py, src/orders/services.py).

External collaborators (PayPal, Shopify, Firestore, email) are modelled as
explicit behaviours passed to the embedded handlers: a call that can raise
is an `Except Unit A` value, raising being `.error ()`.  Money amounts and
prices are `Rat` (Python floats in the source; the claims only involve
exactly representable two-decimal values).  Side effects on the gateways
are recorded in explicit call-flag structures so that theorems can speak
about which gateway calls a handler performed.
-/

namespace ECom

/- The core rational-number operations are marked irreducible, which stops
`decide` from evaluating concrete carts and amounts; restore the default
reducibility for this development so concrete runs reduce. -/
attribute [local semireducible] Rat.mul Rat.add Rat.sub Rat.inv Rat.ofScientific

/-- Decidable equality for `Except`, used to compare recorded gateway
behaviours. -/
instance {ε α : Type} [DecidableEq ε] [DecidableEq α] : DecidableEq (Except ε α) :=
  fun a b =>
    match a, b with
    | .error e, .error f =>
        if h : e = f then .isTrue (by rw [h]) else .isFalse (by simp [h])
    | .ok x, .ok y =>
        if h : x = y then .isTrue (by rw [h]) else .isFalse (by simp [h])
    | .error _, .ok _ => .isFalse (by simp)
    | .ok _, .error _ => .isFalse (by simp)

/-- Order status enum from `orders/models.py` (`Order.Status`): the model
declares exactly PENDING, AUTHORIZED, CAPTURED, FAILED, CANCELLED.  There is
no CRITICAL_INCONSISTENCY member. -/
inductive Status where
  | PENDING
  | AUTHORIZED
  | CAPTURED
  | FAILED
  | CANCELLED
deriving DecidableEq, Repr

/-- One line item of the JSON cart (`order_data['line_items']`): form fields
arrive from the client and may be missing. -/
structure Item where
  variant_id : Option String
  quantity : Option Int
  price : Option Rat
deriving DecidableEq, Repr

/-- The slice of the JSON `order_data` blob the orders code reads:
`line_items` (checkout validation and stock check) and
`customer.email` (cancellation notification). -/
structure OrderData where
  line_items : List Item
  customer_email : Option String
deriving DecidableEq, Repr

/-- The persisted columns of the `Order` model, exactly as declared in
`orders/models.py`: `id`, `user_id`, `paypal_order_id`, `shopify_order_id`,
`status`, `order_data` (timestamps omitted).  Note: `models.py` declares no
`paypal_authorization_id` and no `shopify_order_number` column. -/
structure OrderRow where
  id : String
  user_id : String
  paypal_order_id : Option String
  shopify_order_id : Option String
  status : Status
  order_data : OrderData
deriving DecidableEq, Repr

/-- An in-memory Django model instance as the views use it: the persisted
row plus the two plain Python attributes `paypal_authorization_id` and
`shopify_order_number` that `paypal_return` assigns even though they are
not model fields.  `none` means the attribute does not exist on the
instance (the state of every freshly fetched instance, since `models.py`
declares no such columns): reading it then raises AttributeError, which
the embedded handlers model explicitly at each read site. -/
structure OrderInstance where
  row : OrderRow
  paypal_authorization_id : Option String
  shopify_order_number : Option Nat
deriving DecidableEq, Repr

/-- `Model.save()` writes only the declared model fields: the plain
attributes are dropped. -/
def OrderInstance.save (o : OrderInstance) : OrderRow := o.row

/-- `get_object_or_404` re-builds an instance from the stored columns; the
non-field attributes are absent on a freshly fetched instance. -/
def OrderRow.fetch (r : OrderRow) : OrderInstance :=
  { row := r, paypal_authorization_id := none, shopify_order_number := none }

/-- Python truthiness of an optional string: `None` and `""` are falsy. -/
def falsyS : Option String → Bool
  | none => true
  | some s => s = ""

/-- Python truthiness of an optional integer: `None` and `0` are falsy. -/
def falsyI : Option Int → Bool
  | none => true
  | some n => n = 0

/-- Python truthiness of an optional number: `None` and `0` are falsy. -/
def falsyQ : Option Rat → Bool
  | none => true
  | some q => q = 0

/-- The `not all([variant_id, quantity, frontend_price])` check of
`create_paypal_order` (views.py line 46): the item is invalid when any of
the three fields is missing or falsy (so quantity `0` and price `0` also
count as invalid). -/
def Item.invalidData (it : Item) : Bool :=
  falsyS it.variant_id || falsyI it.quantity || falsyQ it.price

/-- A Shopify variant as returned by `ShopifyService.get_variant_details`. -/
structure Variant where
  title : String
  inventory_quantity : Int
  price : Rat
deriving DecidableEq, Repr

/-- `math.isclose(a, b, rel_tol=1e-5)` with the default `abs_tol=0`:
`|a-b| <= 1e-5 * max(|a|, |b|)`. -/
def isclose (a b : Rat) : Bool :=
  |a - b| ≤ 1 / 100000 * max |a| |b|

/-- Python `round(x, 2)` rounds half to even; embedded on rationals. -/
def roundHalfEven (q : Rat) : Int :=
  let f := ⌊q⌋
  let frac := q - (f : Rat)
  if frac < 1 / 2 then f
  else if 1 / 2 < frac then f + 1
  else if Even f then f else f + 1

/-- Round a rational to two decimal places, half to even. -/
def round2 (q : Rat) : Rat := (roundHalfEven (q * 100) : Rat) / 100

/-- The kind of a per-item validation error appended by the checkout loop. -/
inductive ErrKind where
  | invalidData
  | unavailable
  | outOfStock
  | priceChanged
deriving DecidableEq, Repr

/-- One entry of `validation_errors`: the `variant_id` key the appended dict
carries (absent for the invalid-line-item-data error) and its kind. -/
structure VErr where
  variant_id : Option String
  kind : ErrKind
deriving DecidableEq, Repr

/-- The validation errors one item contributes, given a total variant lookup
(`lk vid = none` models a 404 variant).  Mirrors the per-item body of the
validation loop in `create_paypal_order`: an invalid item contributes the
generic error; a missing variant contributes an unavailable error; a found
variant contributes an out-of-stock error when the requested quantity
exceeds `inventory_quantity`, and additionally a price-changed error when
the submitted price is not within relative tolerance `1e-5` of the live
price (the inventory branch does not `continue`, so one item can
contribute both). -/
def itemErrors (lk : String → Option Variant) (it : Item) : List VErr :=
  if it.invalidData then [⟨none, .invalidData⟩]
  else
    let vid := it.variant_id.getD ""
    match lk vid with
    | none => [⟨some vid, .unavailable⟩]
    | some v =>
        (if it.quantity.getD 0 > v.inventory_quantity then
          [⟨some vid, .outOfStock⟩] else [])
        ++ (if ¬ isclose (it.price.getD 0) v.price then
          [⟨some vid, .priceChanged⟩] else [])

/-- Accumulator of the validation loop: `validation_errors`,
`validated_items` and `recalculated_amount`. -/
structure ValState where
  errors : List VErr
  validated : List Item
  amount : Rat
deriving DecidableEq, Repr

/-- One iteration of the validation loop of `create_paypal_order`
(views.py lines 41-86).  `catalog` is `get_variant_details`: `.error ()`
models the call raising, which the loop turns into an immediate 500
response (modelled as `.error` of the whole run).  A validated item is
appended (with the official Shopify price, and the amount accumulated)
only when the global error list is still empty after this item. -/
def valStep (catalog : String → Except Unit (Option Variant))
    (st : ValState) (it : Item) : Except Unit ValState :=
  if it.invalidData then
    .ok { st with errors := st.errors ++ [⟨none, .invalidData⟩] }
  else
    let vid := it.variant_id.getD ""
    match catalog vid with
    | .error _ => .error ()
    | .ok none => .ok { st with errors := st.errors ++ [⟨some vid, .unavailable⟩] }
    | .ok (some v) =>
        let errs :=
          (if it.quantity.getD 0 > v.inventory_quantity then
            [⟨some vid, .outOfStock⟩] else [])
          ++ (if ¬ isclose (it.price.getD 0) v.price then
            [⟨some vid, .priceChanged⟩] else [])
        let st' := { st with errors := st.errors ++ errs }
        if st'.errors.isEmpty then
          .ok { st' with
                  validated := st'.validated ++ [{ it with price := some v.price }],
                  amount := st'.amount + v.price * (it.quantity.getD 0 : Rat) }
        else .ok st'

/-- The whole validation loop, folding `valStep` over the cart. -/
def runValidation (catalog : String → Except Unit (Option Variant)) :
    List Item → ValState → Except Unit ValState
  | [], st => .ok st
  | it :: rest, st =>
      match valStep catalog st it with
      | .error e => .error e
      | .ok st' => runValidation catalog rest st'

/-- One link of a PayPal order response. -/
structure PLink where
  rel : String
  href : String
deriving DecidableEq, Repr

/-- The PayPal create-order response: an id and a list of links. -/
structure PayPalOrder where
  id : String
  links : List PLink
deriving DecidableEq, Repr

/-- `next(link['href'] for link in links if link['rel'] == 'approve')`:
the first link whose rel is `approve`, if any. -/
def approvalLink (p : PayPalOrder) : Option String :=
  (p.links.find? (fun l => l.rel = "approve")).map (fun l => l.href)

/-- The HTTP outcome of the checkout endpoint. -/
inductive CheckoutResult where
  | badRequestMsg : CheckoutResult
  | validationFailed : List VErr → CheckoutResult
  | serverError : CheckoutResult
  | ok : String → CheckoutResult
deriving DecidableEq, Repr

/-- The local `Order` row the checkout endpoint creates. -/
structure CreatedOrder where
  user_id : String
  line_items : List Item
  amount : Rat
  status : Status
  paypal_order_id : Option String
deriving DecidableEq, Repr

/-- Full observable outcome of the checkout endpoint: HTTP result, the
persisted order row if one was created, and how many PayPal create-order
calls were made. -/
structure CheckoutOutcome where
  result : CheckoutResult
  createdOrder : Option CreatedOrder
  paypalCreateCalls : Nat
deriving DecidableEq, Repr

/-- Embedding of `create_paypal_order` (views.py lines 16-128) from the
point where the request body has been parsed.  `paypalCreate` models
`PayPalService.create_order` (invoked at most once; `.error ()` = raises).
An empty cart is rejected up front; a raised variant lookup yields a 500
before any order row exists; accumulated validation errors yield a 400
with no order row and no PayPal call; otherwise the PENDING row is created
first, then PayPal is called (a raise there leaves the orphaned PENDING
row and returns 500, as does a response without an approve link). -/
def create_paypal_order (userId : String) (lineItems : List Item)
    (catalog : String → Except Unit (Option Variant))
    (paypalCreate : Except Unit PayPalOrder) : CheckoutOutcome :=
  if lineItems.isEmpty then ⟨.badRequestMsg, none, 0⟩
  else
    match runValidation catalog lineItems ⟨[], [], 0⟩ with
    | .error _ => ⟨.serverError, none, 0⟩
    | .ok st =>
        if st.errors.isEmpty then
          let amount := round2 st.amount
          let order0 : CreatedOrder := ⟨userId, st.validated, amount, .PENDING, none⟩
          match paypalCreate with
          | .error _ => ⟨.serverError, some order0, 1⟩
          | .ok p =>
              let order1 := { order0 with paypal_order_id := some p.id }
              match approvalLink p with
              | none => ⟨.serverError, some order1, 1⟩
              | some url => ⟨.ok url, some order1, 1⟩
        else ⟨.validationFailed st.errors, none, 0⟩

/-- The canonical (Shopify-priced) copy of a cart item as the validated
list stores it. -/
def canonItem (lk : String → Option Variant) (it : Item) : Item :=
  match lk (it.variant_id.getD "") with
  | some v => { it with price := some v.price }
  | none => it

/-- The contribution of one item to the recalculated amount:
official price times requested quantity. -/
def canonAmount (lk : String → Option Variant) (it : Item) : Rat :=
  match lk (it.variant_id.getD "") with
  | some v => v.price * (it.quantity.getD 0 : Rat)
  | none => 0

/-- All validation errors the loop accumulates for a cart, in order:
the concatenation of the per-item error lists. -/
def allErrors (lk : String → Option Variant) : List Item → List VErr
  | [] => []
  | it :: rest => itemErrors lk it ++ allErrors lk rest

/-- The recalculated total of a fully valid cart: sum of official price
times quantity over the items. -/
def canonTotal (lk : String → Option Variant) : List Item → Rat
  | [] => 0
  | it :: rest => canonAmount lk it + canonTotal lk rest

/-- An item fails one of the three live checks of the validation loop:
its variant is gone, the requested quantity exceeds the live inventory, or
the submitted price is not within relative tolerance `1e-5` of the live
price.  (Only meaningful for items that pass the invalid-data check.) -/
def itemFailsCheck (lk : String → Option Variant) (it : Item) : Bool :=
  !it.invalidData &&
    (match lk (it.variant_id.getD "") with
     | none => true
     | some v =>
        (it.quantity.getD 0 > v.inventory_quantity : Bool)
        || !isclose (it.price.getD 0) v.price)

/- ------------------------------------------------------------------
Stock check at settlement time (services.py).
------------------------------------------------------------------ -/

/-- A Firestore product variant: an id and an optional `inventory` count. -/
structure StockVariant where
  id : String
  inventory : Option Int
deriving DecidableEq, Repr

/-- A Firestore product document: its list of variants. -/
structure StockProduct where
  variants : List StockVariant
deriving DecidableEq, Repr

/-- The Firestore catalog behaviour seen by `is_stock_available`:
the streamed products, and whether streaming raises. -/
structure StockCatalog where
  products : List StockProduct
  raises : Bool
deriving DecidableEq, Repr

/-- The nested scan of `is_stock_available`: first variant with a matching
id across the streamed products, in order. -/
def findStockVariant (ps : List StockProduct) (vid : String) : Option StockVariant :=
  match ps with
  | [] => none
  | p :: rest =>
      match p.variants.find? (fun v => v.id = vid) with
      | some v => some v
      | none => findStockVariant rest vid

/-- Embedding of `is_stock_available` (services.py lines 198-239): any
exception during the catalog scan is caught and yields `false`; the first
matching variant decides (`inventory is not None and inventory >= quantity`);
a variant found nowhere yields `false`. -/
def is_stock_available (c : StockCatalog) (vid : String) (qty : Int) : Bool :=
  if c.raises then false
  else
    match findStockVariant c.products vid with
    | some v =>
        match v.inventory with
        | some inv => qty ≤ inv
        | none => false
    | none => false

/-- The per-item loop of `check_ali_express_stock`: an item with a falsy
`variant_id` or an absent `quantity` fails, then `is_stock_available`
decides. -/
def checkStockItems (c : StockCatalog) : List Item → Bool
  | [] => true
  | it :: rest =>
      if falsyS it.variant_id || it.quantity.isNone then false
      else if !is_stock_available c (it.variant_id.getD "") (it.quantity.getD 0) then false
      else checkStockItems c rest

/-- Embedding of `check_ali_express_stock` (services.py lines 15-42):
an order with no line items fails the check outright. -/
def check_ali_express_stock (c : StockCatalog) (items : List Item) : Bool :=
  if items.isEmpty then false else checkStockItems c items

/- ------------------------------------------------------------------
The settlement saga: `process_order` and `_cancel_order_flow` (views.py).
------------------------------------------------------------------ -/

/-- The PayPal capture response fields `process_order` reads. -/
structure CaptureData where
  amount : Rat
  currency : String
  id : String
deriving DecidableEq, Repr

/-- Behaviour of the two gateways during one settlement invocation:
each field is the outcome of the corresponding call, `.error ()` modelling
a raised exception. -/
structure SagaBehavior where
  captureResult : Except Unit CaptureData
  shopifyPaidResult : Except Unit Unit
  voidResult : Except Unit Unit
  cancelResult : Except Unit Unit
deriving DecidableEq, Repr

/-- Which outbound calls a settlement invocation performed. -/
structure SagaCalls where
  captureCalled : Bool
  shopifyPaidCalled : Bool
  voidCalled : Bool
  cancelCalled : Bool
  notifyCalled : Bool
deriving DecidableEq, Repr

/-- No calls performed yet. -/
def SagaCalls.none : SagaCalls := ⟨false, false, false, false, false⟩

/-- The HTTP response of the settlement endpoint: 404 from
`get_object_or_404`, the 400 cancellation JSON (with its reason message),
or the 200 success JSON. -/
inductive SagaResponse where
  | notFound
  | cancelled : String → SagaResponse
  | success
deriving DecidableEq, Repr

/-- Outcome of a settlement invocation: the resulting order instance, the
calls performed, and the HTTP response. -/
structure SagaOutcome where
  order : OrderInstance
  calls : SagaCalls
  response : SagaResponse
deriving DecidableEq, Repr

/-- Reason message used when the stock re-check fails. -/
def stockReason : String := "An item in your order is out of stock."

/-- Reason message used when the Shopify paid-update fails after capture. -/
def criticalReason : String := "A critical error occurred while finalizing your order."

/-- Reason message used when the PayPal capture fails. -/
def paymentReason : String := "Your payment could not be processed."

/-- Tail of `_cancel_order_flow` after the two gateway compensations: set
`status=CANCELLED`, save, and send the customer notification when a
customer email is present (the email helper catches its own exceptions and
never raises). -/
def cancelFlowFinish (o : OrderInstance) (reason : String)
    (calls : SagaCalls) : SagaOutcome :=
  let o' := { o with row := { o.row with status := .CANCELLED } }
  if !falsyS o.row.order_data.customer_email then
    ⟨o', { calls with notifyCalled := true }, .cancelled reason⟩
  else
    ⟨o', calls, .cancelled reason⟩

/-- Middle of `_cancel_order_flow`: cancel the Shopify order when a
`shopify_order_id` is present; a raise aborts the remaining sub-steps
(status is left unchanged) but the 400 response is still returned. -/
def cancelFlowShopify (b : SagaBehavior) (o : OrderInstance) (reason : String)
    (calls : SagaCalls) : SagaOutcome :=
  if !falsyS o.row.shopify_order_id then
    match b.cancelResult with
    | .error _ => ⟨o, { calls with cancelCalled := true }, .cancelled reason⟩
    | .ok _ => cancelFlowFinish o reason { calls with cancelCalled := true }
  else cancelFlowFinish o reason calls

/-- Embedding of `_cancel_order_flow` (views.py lines 284-302).  All
sub-steps live inside one `try`.  Its first statement reads
`local_order.paypal_authorization_id` (line 288): on an instance where the
attribute does not exist — every freshly fetched instance, since
`models.py` declares no such column — the read itself raises
AttributeError, caught by the single `except`, so every sub-step is
skipped and the 400 response is returned with the order unchanged.  When
the attribute exists, a truthy value has the authorization voided (a raise
there likewise aborts the remaining sub-steps), and then the Shopify
cancel, the status update and the notification follow. -/
def cancel_order_flow (b : SagaBehavior) (o : OrderInstance) (reason : String)
    (calls : SagaCalls) : SagaOutcome :=
  match o.paypal_authorization_id with
  | none => ⟨o, calls, .cancelled reason⟩
  | some aid =>
      if aid = "" then cancelFlowShopify b o reason calls
      else
        match b.voidResult with
        | .error _ => ⟨o, { calls with voidCalled := true }, .cancelled reason⟩
        | .ok _ => cancelFlowShopify b o reason { calls with voidCalled := true }

/-- Embedding of `process_order` (views.py lines 265-347).  The order is
fetched with `get_object_or_404(Order, id=..., status=AUTHORIZED)`: any
other status yields a 404 with no call performed.  Then: a failed stock
re-check routes to `_cancel_order_flow`.  The capture call at line 314
first evaluates `local_order.paypal_authorization_id`: when the attribute
does not exist this read raises AttributeError before PayPal is ever
consulted, and the `except paypal_error` handler routes to
`_cancel_order_flow` with no capture call recorded.  When the attribute
exists, the capture is attempted: a raise routes to `_cancel_order_flow`;
a successful capture followed by a raised Shopify paid-update also routes
to `_cancel_order_flow` (with the critical reason); full success sets
`status=CAPTURED`. -/
def process_order (b : SagaBehavior) (c : StockCatalog) (o : OrderInstance) :
    SagaOutcome :=
  if o.row.status ≠ .AUTHORIZED then ⟨o, SagaCalls.none, .notFound⟩
  else if !check_ali_express_stock c o.row.order_data.line_items then
    cancel_order_flow b o stockReason SagaCalls.none
  else
    match o.paypal_authorization_id with
    | none => cancel_order_flow b o paymentReason SagaCalls.none
    | some _ =>
        match b.captureResult with
        | .error _ =>
            cancel_order_flow b o paymentReason
              { SagaCalls.none with captureCalled := true }
        | .ok _ =>
            match b.shopifyPaidResult with
            | .error _ =>
                cancel_order_flow b o criticalReason
                  { SagaCalls.none with captureCalled := true, shopifyPaidCalled := true }
            | .ok _ =>
                ⟨{ o with row := { o.row with status := .CAPTURED } },
                 { SagaCalls.none with captureCalled := true, shopifyPaidCalled := true },
                 .success⟩

/- ------------------------------------------------------------------
The approval-return and cancel handlers (views.py) and the audit sink
(services.py).
------------------------------------------------------------------ -/

/-- The authorization payload `paypal_return` extracts from the PayPal
authorize response: `purchase_units[0].payments.authorizations[0].id`,
if present. -/
structure AuthDetails where
  authorization_id : Option String
deriving DecidableEq, Repr

/-- The Shopify create-order response fields `paypal_return` reads. -/
structure ShopifyOrderResp where
  id : String
  order_number : Nat
deriving DecidableEq, Repr

/-- Where the handler redirects the customer. -/
inductive RedirectTarget where
  | success
  | failure
  | cancelPage
deriving DecidableEq, Repr

/-- Embedding of `save_order_to_firestore` (services.py lines 241-315),
reduced to its control flow: every statement sits inside one `try` whose
`except` logs and returns `False`, so the function is total and never
raises.  `dataPresent` models the `all([...])` presence check on the three
payload parts, `orderNumber` the Shopify order number, and `sink` the
`doc_ref.set` call (`.error ()` = the write raises). -/
def save_order_to_firestore (dataPresent : Bool) (orderNumber : Option Nat)
    (sink : Except Unit Unit) : Bool :=
  if !dataPresent then false
  else
    match orderNumber with
    | none => false
    | some _ =>
        match sink with
        | .error _ => false
        | .ok _ => true

/-- Embedding of `paypal_return` (views.py lines 131-189) for a found
order.  `auth` is `PayPalService.authorize_order` (a raise goes to the
outer `except` and redirects to the failure page with nothing saved); a
missing authorization id also redirects to the failure page; `shopifyCreate`
is `ShopifyService.create_order` (a raise likewise saves nothing).  On
success the instance gets the two non-field attributes assigned, the row
fields `shopify_order_id` and `status=AUTHORIZED` are saved, the Firestore
audit write is attempted (its boolean result is discarded), and the
customer is redirected to the success page.  The result is the persisted
row, the redirect, and the audit-write result. -/
def paypal_return (o : OrderInstance) (auth : Except Unit AuthDetails)
    (shopifyCreate : Except Unit ShopifyOrderResp) (sink : Except Unit Unit) :
    OrderRow × RedirectTarget × Bool :=
  match auth with
  | .error _ => (o.row, .failure, false)
  | .ok details =>
      match details.authorization_id with
      | none => (o.row, .failure, false)
      | some aid =>
          match shopifyCreate with
          | .error _ => (o.row, .failure, false)
          | .ok so =>
              let o2 : OrderInstance :=
                { row := { o.row with
                             shopify_order_id := some so.id,
                             status := .AUTHORIZED },
                  paypal_authorization_id := some aid,
                  shopify_order_number := some so.order_number }
              let audit := save_order_to_firestore true (some so.order_number) sink
              (o2.save, .success, audit)

/-- Embedding of `paypal_cancel` (views.py lines 192-206) for a found
order: the status is set to CANCELLED unconditionally (no check of the
current status) and the customer is redirected to the cancel page. -/
def paypal_cancel (o : OrderInstance) : OrderRow × RedirectTarget :=
  ({ o.row with status := .CANCELLED }, .cancelPage)

/-- The status edges the specification declares legal (CRITICAL_INCONSISTENCY
is not representable: `Status` has no such member). -/
def claimAllowedEdge : Status → Status → Bool
  | .PENDING, .AUTHORIZED => true
  | .AUTHORIZED, .CAPTURED => true
  | .PENDING, .CANCELLED => true
  | .AUTHORIZED, .CANCELLED => true
  | _, _ => false

/- ------------------------------------------------------------------
Concrete scenarios used as witnesses and counterexamples.
------------------------------------------------------------------ -/

/-- Scenario A lookup: variant V1 lives, price 9.99, stock 10. -/
def scA_lk : String → Option Variant :=
  fun s => if s = "V1" then some ⟨"Tee", 10, 999 / 100⟩ else none

/-- Scenario A variant service: lookups never raise. -/
def scA_catalog : String → Except Unit (Option Variant) :=
  fun s => .ok (scA_lk s)

/-- Scenario A cart: one line of V1, quantity 2, submitted price 9.99. -/
def scA_items : List Item := [⟨some "V1", some 2, some (999 / 100)⟩]

/-- Scenario A PayPal create-order response with an approval link. -/
def scA_pp : PayPalOrder := ⟨"PP-1", [⟨"approve", "https://paypal.example/approve"⟩]⟩

/-- Scenario B lookup: V1 lives but only 1 unit is in stock. -/
def scB_lk : String → Option Variant :=
  fun s => if s = "V1" then some ⟨"Tee", 1, 999 / 100⟩ else none

/-- Scenario B variant service: lookups never raise. -/
def scB_catalog : String → Except Unit (Option Variant) :=
  fun s => .ok (scB_lk s)

/-- A cart whose only item has quantity 0: invalid line item data. -/
def zeroQtyItems : List Item := [⟨some "V3", some 0, some 5⟩]

/-- A settlement-time catalog holding variant V1 with 5 units in stock. -/
def stockCatalogV1 : StockCatalog := ⟨[⟨[⟨"V1", some 5⟩]⟩], false⟩

/-- A settlement-time catalog with no products at all. -/
def emptyStockCatalog : StockCatalog := ⟨[], false⟩

/-- A gateway behaviour in which every call succeeds. -/
def okBehavior : SagaBehavior := ⟨.ok ⟨10, "USD", "CAP-1"⟩, .ok (), .ok (), .ok ()⟩

/-- Gateway behaviour for the critical path: capture succeeds, the Shopify
paid-update raises, compensation calls succeed. -/
def shopifyFailBehavior : SagaBehavior := ⟨.ok ⟨10, "USD", "CAP-1"⟩, .error (), .ok (), .ok ()⟩

/-- Gateway behaviour in which voiding the authorization raises. -/
def voidFailBehavior : SagaBehavior := ⟨.ok ⟨10, "USD", "CAP-1"⟩, .ok (), .error (), .ok ()⟩

/-- An AUTHORIZED order carrying both gateway identifiers, one stocked
line item and a customer email. -/
def authOrder : OrderInstance :=
  ⟨⟨"o1", "u1", some "PPO-1", some "SHO-1", .AUTHORIZED,
    ⟨[⟨some "V1", some 1, some 10⟩], some "c@example.com"⟩⟩,
   some "AUTH-1", some 1001⟩

/-- An AUTHORIZED order with both identifiers and a customer email whose
cart has no line items (so the settlement stock re-check fails). -/
def authOrderNoItems : OrderInstance :=
  ⟨⟨"o3", "u3", some "PPO-3", some "SHO-3", .AUTHORIZED,
    ⟨[], some "c3@example.com"⟩⟩,
   some "AUTH-3", none⟩

/-- An AUTHORIZED order as a fresh fetch produces it: the persisted
columns are set but the non-field authorization attribute is absent, and
its empty cart makes the settlement stock re-check fail. -/
def fetchedAuthOrder : OrderInstance :=
  ⟨⟨"o6", "u6", some "PPO-6", some "SHO-6", .AUTHORIZED,
    ⟨[], some "c6@example.com"⟩⟩,
   none, none⟩

/-- An order already in the terminal CAPTURED state. -/
def capturedOrder : OrderInstance :=
  ⟨⟨"o2", "u2", some "PPO-2", some "SHO-2", .CAPTURED, ⟨[], none⟩⟩, none, none⟩

/-- A PENDING order about to go through the approval-return handler. -/
def pendingOrder : OrderInstance :=
  ⟨⟨"o5", "u5", some "PPO-5", none, .PENDING,
    ⟨[⟨some "V1", some 1, some 10⟩], some "c5@example.com"⟩⟩,
   none, none⟩

/- ------------------------------------------------------------------
Helper lemmas about the checkout validation loop.
------------------------------------------------------------------ -/

/-- A line item that passes the invalid-data check has a present (and
non-empty) variant id. -/
theorem variantId_eq_of_valid (it : Item) (h : it.invalidData = false) :
    it.variant_id = some (it.variant_id.getD "") := by
  cases hv : it.variant_id with
  | none => simp [Item.invalidData, falsyS, hv] at h
  | some s => simp

/-- Membership in `allErrors` is membership in some item's error list. -/
theorem mem_allErrors {lk : String → Option Variant} {e : VErr} :
    ∀ (items : List Item), e ∈ allErrors lk items ↔
      ∃ it ∈ items, e ∈ itemErrors lk it
  | [] => by simp [allErrors]
  | it :: rest => by
      simp [allErrors, List.mem_append, mem_allErrors rest]

/-- An item that fails one of the three live checks contributes an error
entry that names its variant id. -/
theorem itemErrors_names_failing (lk : String → Option Variant) (it : Item)
    (h : itemFailsCheck lk it = true) :
    ∃ e ∈ itemErrors lk it, e.variant_id = it.variant_id := by
  have hinv : it.invalidData = false := by
    cases h0 : it.invalidData
    · rfl
    · simp [itemFailsCheck, h0] at h
  have hv := variantId_eq_of_valid it hinv
  cases hlk : lk (it.variant_id.getD "") with
  | none =>
      refine ⟨⟨some (it.variant_id.getD ""), .unavailable⟩, ?_, hv.symm⟩
      simp [itemErrors, hinv, hlk]
  | some v =>
      simp only [itemFailsCheck, hinv, Bool.not_false, Bool.true_and, hlk] at h
      rcases (Bool.or_eq_true _ _).mp h with h1 | h1
      · have hq : it.quantity.getD 0 > v.inventory_quantity := of_decide_eq_true h1
        refine ⟨⟨some (it.variant_id.getD ""), .outOfStock⟩, ?_, hv.symm⟩
        simp [itemErrors, hinv, hlk, hq]
      · by_cases hq : it.quantity.getD 0 > v.inventory_quantity
        · refine ⟨⟨some (it.variant_id.getD ""), .outOfStock⟩, ?_, hv.symm⟩
          simp [itemErrors, hinv, hlk, hq]
        · have hcl : isclose (it.price.getD 0) v.price = false := by
            cases hb : isclose (it.price.getD 0) v.price
            · rfl
            · simp [hb] at h1
          refine ⟨⟨some (it.variant_id.getD ""), .priceChanged⟩, ?_, hv.symm⟩
          simp [itemErrors, hinv, hlk, hq, hcl]

/-- An item with an empty error list passed every check: it is valid, its
variant was found, the quantity fits the live inventory and the submitted
price is within tolerance of the live price. -/
theorem itemClean_spec (lk : String → Option Variant) (it : Item)
    (h : itemErrors lk it = []) :
    it.invalidData = false ∧ ∃ v, lk (it.variant_id.getD "") = some v ∧
      ¬(it.quantity.getD 0 > v.inventory_quantity) ∧
      isclose (it.price.getD 0) v.price = true := by
  have hinv : it.invalidData = false := by
    cases h0 : it.invalidData
    · rfl
    · simp [itemErrors, h0] at h
  refine ⟨hinv, ?_⟩
  cases hlk : lk (it.variant_id.getD "") with
  | none => simp [itemErrors, hinv, hlk] at h
  | some v =>
      refine ⟨v, rfl, ?_, ?_⟩
      · intro hq
        simp [itemErrors, hinv, hlk, hq] at h
      · cases hb : isclose (it.price.getD 0) v.price
        · simp [itemErrors, hinv, hlk, hb] at h
        · rfl

/-- One validation-loop step never raises when the variant lookup does not
raise, and it appends exactly the item's error list. -/
theorem valStep_errors (catalog : String → Except Unit (Option Variant))
    (lk : String → Option Variant) (st : ValState) (it : Item)
    (hit : it.invalidData = false →
      catalog (it.variant_id.getD "") = .ok (lk (it.variant_id.getD ""))) :
    ∃ st₁, valStep catalog st it = .ok st₁ ∧
      st₁.errors = st.errors ++ itemErrors lk it := by
  by_cases hinv : it.invalidData = true
  · refine ⟨{ st with errors := st.errors ++ [⟨none, .invalidData⟩] }, ?_, ?_⟩
    · simp [valStep, hinv]
    · simp [itemErrors, hinv]
  · have hinv' : it.invalidData = false := by simpa using hinv
    have hc := hit hinv'
    cases hlk : lk (it.variant_id.getD "") with
    | none =>
        refine ⟨{ st with
          errors := st.errors ++ [⟨some (it.variant_id.getD ""), .unavailable⟩] }, ?_, ?_⟩
        · simp [valStep, hinv', hc, hlk]
        · simp [itemErrors, hinv', hlk]
    | some v =>
        have herrs : itemErrors lk it =
            (if it.quantity.getD 0 > v.inventory_quantity then
              [⟨some (it.variant_id.getD ""), ErrKind.outOfStock⟩] else [])
            ++ (if ¬ isclose (it.price.getD 0) v.price then
              [⟨some (it.variant_id.getD ""), ErrKind.priceChanged⟩] else []) := by
          simp only [itemErrors]
          rw [if_neg (by simp [hinv'])]
          rw [hlk]
        have hstep : valStep catalog st it =
            (if (st.errors ++ itemErrors lk it).isEmpty then
              Except.ok ⟨st.errors ++ itemErrors lk it,
                st.validated ++ [{ it with price := some v.price }],
                st.amount + v.price * (it.quantity.getD 0 : Rat)⟩
            else
              Except.ok ⟨st.errors ++ itemErrors lk it, st.validated, st.amount⟩) := by
          rw [herrs]
          simp only [valStep]
          rw [if_neg (by simp [hinv'])]
          rw [hc, hlk]
        cases hE : (st.errors ++ itemErrors lk it).isEmpty
        · refine ⟨⟨st.errors ++ itemErrors lk it, st.validated, st.amount⟩, ?_, rfl⟩
          rw [hstep, if_neg (by simp [hE])]
        · refine ⟨⟨st.errors ++ itemErrors lk it,
            st.validated ++ [{ it with price := some v.price }],
            st.amount + v.price * (it.quantity.getD 0 : Rat)⟩, ?_, rfl⟩
          rw [hstep, if_pos (by simp [hE])]

/-- The whole validation loop never raises when no variant lookup raises,
and its final error list is the initial one followed by every item's
errors: errors are accumulated across all items, never fail-fast. -/
theorem runValidation_errors (catalog : String → Except Unit (Option Variant))
    (lk : String → Option Variant) :
    ∀ (items : List Item) (st : ValState),
    (∀ it ∈ items, it.invalidData = false →
      catalog (it.variant_id.getD "") = .ok (lk (it.variant_id.getD ""))) →
    ∃ st', runValidation catalog items st = .ok st' ∧
      st'.errors = st.errors ++ allErrors lk items
  | [], st, _ => ⟨st, rfl, by simp [allErrors]⟩
  | it :: rest, st, hcat => by
      obtain ⟨st₁, hstep, herr₁⟩ :=
        valStep_errors catalog lk st it (hcat it (by simp))
      obtain ⟨st', hrun, herr⟩ :=
        runValidation_errors catalog lk rest st₁
          (fun x hx => hcat x (by simp [hx]))
      refine ⟨st', ?_, ?_⟩
      · simp [runValidation, hstep, hrun]
      · rw [herr, herr₁, allErrors, List.append_assoc]

/-- A step on a fully clean item extends the validated list with the
canonically priced copy of the item and accumulates its amount. -/
theorem valStep_clean (catalog : String → Except Unit (Option Variant))
    (lk : String → Option Variant) (st : ValState) (it : Item)
    (hit : it.invalidData = false →
      catalog (it.variant_id.getD "") = .ok (lk (it.variant_id.getD "")))
    (hclean : itemErrors lk it = []) (hst : st.errors = []) :
    valStep catalog st it =
      .ok ⟨[], st.validated ++ [canonItem lk it], st.amount + canonAmount lk it⟩ := by
  obtain ⟨hinv, v, hlk, hq, hcl⟩ := itemClean_spec lk it hclean
  have hc := hit hinv
  have hcan : canonItem lk it = { it with price := some v.price } := by
    simp [canonItem, hlk]
  have hca : canonAmount lk it = v.price * (it.quantity.getD 0 : Rat) := by
    simp [canonAmount, hlk]
  simp [valStep, hinv, hc, hlk, hq, hcl, hst, hcan, hca]

/-- The whole validation loop on a fully clean cart returns no errors, the
canonically priced items, and the recalculated total. -/
theorem runValidation_clean (catalog : String → Except Unit (Option Variant))
    (lk : String → Option Variant) :
    ∀ (items : List Item) (st : ValState),
    (∀ it ∈ items, it.invalidData = false →
      catalog (it.variant_id.getD "") = .ok (lk (it.variant_id.getD ""))) →
    (∀ it ∈ items, itemErrors lk it = []) →
    st.errors = [] →
    runValidation catalog items st =
      .ok ⟨[], st.validated ++ items.map (canonItem lk),
           st.amount + canonTotal lk items⟩
  | [], st, _, _, hst => by
      cases st with
      | mk e v a => simp_all [runValidation, canonTotal]
  | it :: rest, st, hcat, hclean, hst => by
      have hstep := valStep_clean catalog lk st it (hcat it (by simp))
        (hclean it (by simp)) hst
      have hrec := runValidation_clean catalog lk rest
        ⟨[], st.validated ++ [canonItem lk it], st.amount + canonAmount lk it⟩
        (fun x hx => hcat x (by simp [hx]))
        (fun x hx => hclean x (by simp [hx])) rfl
      simp only [runValidation, hstep, hrec, canonTotal, List.map_cons]
      rw [List.append_assoc, add_assoc]
      rfl

/-- A checkout whose cart accumulates at least one validation error is
rejected with the full accumulated error list, creates no order row and
makes no PayPal call. -/
theorem checkout_reject_of_errors (userId : String) (items : List Item)
    (catalog : String → Except Unit (Option Variant))
    (lk : String → Option Variant) (pp : Except Unit PayPalOrder)
    (hcat : ∀ it ∈ items, it.invalidData = false →
      catalog (it.variant_id.getD "") = .ok (lk (it.variant_id.getD "")))
    (hne : allErrors lk items ≠ []) :
    create_paypal_order userId items catalog pp =
      ⟨.validationFailed (allErrors lk items), none, 0⟩ := by
  have hitems : items.isEmpty = false := by
    cases items with
    | nil => simp [allErrors] at hne
    | cons a l => rfl
  obtain ⟨st', hrun, herr⟩ :=
    runValidation_errors catalog lk items ⟨[], [], 0⟩ hcat
  have herr' : st'.errors = allErrors lk items := by simpa using herr
  have hE : st'.errors.isEmpty = false := by
    rw [herr']
    cases hl : allErrors lk items
    · exact absurd hl hne
    · rfl
  simp [create_paypal_order, hitems, hrun, hE, herr', hne]

/-- A degenerate line item (missing field, empty variant id, zero quantity
or zero price) is flagged by the invalid-line-item-data check. -/
theorem invalidData_of_degenerate (it : Item)
    (h : it.quantity = some 0 ∨ it.price = some 0 ∨ it.variant_id = none ∨
      it.variant_id = some "" ∨ it.quantity = none ∨ it.price = none) :
    it.invalidData = true := by
  rcases h with h | h | h | h | h | h <;>
    simp [Item.invalidData, falsyS, falsyI, falsyQ, h]

/-- C6.  For every submitted cart (given that the live variant lookups
respond rather than raise), if any line item fails a live check — price
drift beyond relative tolerance 1e-5, quantity above the available stock,
or a missing variant — the checkout is rejected as a whole with the
per-item errors accumulated across all items, no Order row is created,
and zero PayPal calls are made; every failing item is named in the
returned error list. -/
theorem checkout_invalid_cart_rejected_no_side_effects (userId : String)
    (items : List Item) (catalog : String → Except Unit (Option Variant))
    (lk : String → Option Variant) (pp : Except Unit PayPalOrder)
    (hcat : ∀ it ∈ items, it.invalidData = false →
      catalog (it.variant_id.getD "") = .ok (lk (it.variant_id.getD "")))
    (hfail : ∃ it ∈ items, itemFailsCheck lk it = true) :
    create_paypal_order userId items catalog pp =
      ⟨.validationFailed (allErrors lk items), none, 0⟩ ∧
    allErrors lk items ≠ [] ∧
    ∀ it ∈ items, itemFailsCheck lk it = true →
      ∃ e ∈ allErrors lk items, e.variant_id = it.variant_id := by
  obtain ⟨it₀, hmem₀, hf₀⟩ := hfail
  have hne : allErrors lk items ≠ [] := by
    obtain ⟨e, he, _⟩ := itemErrors_names_failing lk it₀ hf₀
    intro h0
    have : e ∈ allErrors lk items := (mem_allErrors items).mpr ⟨it₀, hmem₀, he⟩
    rw [h0] at this
    simp at this
  refine ⟨checkout_reject_of_errors userId items catalog lk pp hcat hne, hne, ?_⟩
  intro it hit hfit
  obtain ⟨e, he, hv⟩ := itemErrors_names_failing lk it hfit
  exact ⟨e, (mem_allErrors items).mpr ⟨it, hit, he⟩, hv⟩

/-- Witness for C6 (Scenario B): the one-line cart for V1 with quantity 2
against live stock 1 is rejected with an accumulated error list naming V1,
with no order row and no PayPal call. -/
theorem checkout_invalid_cart_rejected_no_side_effects_witness :
    create_paypal_order "u1" scA_items scB_catalog (.ok scA_pp) =
      ⟨.validationFailed (allErrors scB_lk scA_items), none, 0⟩ ∧
    allErrors scB_lk scA_items ≠ [] ∧
    ∀ it ∈ scA_items, itemFailsCheck scB_lk it = true →
      ∃ e ∈ allErrors scB_lk scA_items, e.variant_id = it.variant_id :=
  checkout_invalid_cart_rejected_no_side_effects "u1" scA_items scB_catalog
    scB_lk (.ok scA_pp) (by decide) (by decide)

/-- C10.  A line item with quantity 0 or price 0 (or missing any of
variant id, quantity, price) is classified as invalid line item data, so a
cart containing one (given that the other items' lookups respond) is
rejected with HTTP 400, with no order row and no PayPal call. -/
theorem checkout_zero_quantity_or_price_rejected (userId : String)
    (items : List Item) (catalog : String → Except Unit (Option Variant))
    (lk : String → Option Variant) (pp : Except Unit PayPalOrder)
    (hcat : ∀ it ∈ items, it.invalidData = false →
      catalog (it.variant_id.getD "") = .ok (lk (it.variant_id.getD "")))
    (hbad : ∃ it ∈ items, it.quantity = some 0 ∨ it.price = some 0 ∨
      it.variant_id = none ∨ it.variant_id = some "" ∨
      it.quantity = none ∨ it.price = none) :
    create_paypal_order userId items catalog pp =
      ⟨.validationFailed (allErrors lk items), none, 0⟩ ∧
    (⟨none, .invalidData⟩ : VErr) ∈ allErrors lk items := by
  obtain ⟨it₀, hmem₀, hdeg⟩ := hbad
  have hinv : it₀.invalidData = true := invalidData_of_degenerate it₀ hdeg
  have hmem : (⟨none, .invalidData⟩ : VErr) ∈ allErrors lk items := by
    refine (mem_allErrors items).mpr ⟨it₀, hmem₀, ?_⟩
    simp [itemErrors, hinv]
  have hne : allErrors lk items ≠ [] := by
    intro h0
    rw [h0] at hmem
    simp at hmem
  exact ⟨checkout_reject_of_errors userId items catalog lk pp hcat hne, hmem⟩

/-- Witness for C10: a cart whose only item requests quantity 0 is
rejected with the invalid-line-item-data error, no order row, no PayPal
call. -/
theorem checkout_zero_quantity_or_price_rejected_witness :
    create_paypal_order "u1" zeroQtyItems scA_catalog (.ok scA_pp) =
      ⟨.validationFailed (allErrors scA_lk zeroQtyItems), none, 0⟩ ∧
    (⟨none, .invalidData⟩ : VErr) ∈ allErrors scA_lk zeroQtyItems :=
  checkout_zero_quantity_or_price_rejected "u1" zeroQtyItems scA_catalog
    scA_lk (.ok scA_pp) (by decide) (by decide)

/-- C7.  A cart every item of which passes all live checks is accepted:
the persisted order is PENDING, its line items carry the canonical Shopify
prices, its amount is the sum of canonical price times quantity rounded to
two decimals, exactly one PayPal create call is made, and the approval
link is returned. -/
theorem checkout_valid_cart_canonical_amount (userId : String)
    (items : List Item) (catalog : String → Except Unit (Option Variant))
    (lk : String → Option Variant) (p : PayPalOrder) (url : String)
    (hcat : ∀ it ∈ items, it.invalidData = false →
      catalog (it.variant_id.getD "") = .ok (lk (it.variant_id.getD "")))
    (hclean : ∀ it ∈ items, itemErrors lk it = [])
    (hne : items ≠ [])
    (happrove : approvalLink p = some url) :
    create_paypal_order userId items catalog (.ok p) =
      ⟨.ok url,
       some ⟨userId, items.map (canonItem lk),
             round2 (canonTotal lk items), .PENDING, some p.id⟩,
       1⟩ ∧
    ∀ it ∈ items, ∃ v, lk (it.variant_id.getD "") = some v ∧
      (canonItem lk it).price = some v.price := by
  have hitems : items.isEmpty = false := by
    cases items with
    | nil => exact absurd rfl hne
    | cons a l => rfl
  have hrun := runValidation_clean catalog lk items ⟨[], [], 0⟩ hcat hclean rfl
  refine ⟨?_, ?_⟩
  · simp [create_paypal_order, hitems, hrun, happrove]
  · intro it hit
    obtain ⟨_, v, hlk, _, _⟩ := itemClean_spec lk it (hclean it hit)
    exact ⟨v, hlk, by simp [canonItem, hlk]⟩

/-- Witness for C7 (Scenario A): the cart of one V1 at 9.99 times 2
against live price 9.99 and stock 10 is accepted with a PENDING order,
canonical prices, amount 19.98 and the approval link returned. -/
theorem checkout_valid_cart_canonical_amount_witness :
    (create_paypal_order "u1" scA_items scA_catalog (.ok scA_pp) =
      ⟨.ok "https://paypal.example/approve",
       some ⟨"u1", scA_items.map (canonItem scA_lk),
             round2 (canonTotal scA_lk scA_items), .PENDING, some "PP-1"⟩,
       1⟩ ∧
    ∀ it ∈ scA_items, ∃ v, scA_lk (it.variant_id.getD "") = some v ∧
      (canonItem scA_lk it).price = some v.price) ∧
    round2 (canonTotal scA_lk scA_items) = 1998 / 100 :=
  ⟨checkout_valid_cart_canonical_amount "u1" scA_items scA_catalog scA_lk
      scA_pp "https://paypal.example/approve"
      (by decide) (by decide) (by decide) (by decide),
   by decide⟩

/- ------------------------------------------------------------------
Stock check at settlement time (C9).
------------------------------------------------------------------ -/

/-- When the item loop of the stock check succeeds, every item has a
present variant id and quantity and passes `is_stock_available`. -/
theorem checkStockItems_spec (c : StockCatalog) :
    ∀ (items : List Item), checkStockItems c items = true →
      ∀ it ∈ items, (falsyS it.variant_id || it.quantity.isNone) = false ∧
        is_stock_available c (it.variant_id.getD "") (it.quantity.getD 0) = true
  | [] => by simp
  | it :: rest => by
      intro h x hx
      simp only [checkStockItems] at h
      by_cases h1 : (falsyS it.variant_id || it.quantity.isNone) = true
      · rw [if_pos h1] at h
        exact absurd h (by simp)
      · have h1' : (falsyS it.variant_id || it.quantity.isNone) = false := by
          cases hB : (falsyS it.variant_id || it.quantity.isNone)
          · rfl
          · exact absurd hB h1
        rw [if_neg h1] at h
        by_cases h2 : is_stock_available c (it.variant_id.getD "")
            (it.quantity.getD 0) = true
        · rw [if_neg (by simp [h2])] at h
          rcases List.mem_cons.mp hx with rfl | hx2
          · exact ⟨h1', h2⟩
          · exact checkStockItems_spec c rest h x hx2
        · have h2' : is_stock_available c (it.variant_id.getD "")
              (it.quantity.getD 0) = false := by simpa using h2
          rw [if_pos (by simp [h2'])] at h
          exact absurd h (by simp)

/-- C9.  The settlement stock check is a total boolean function; it can
return true only when the cart is non-empty, the catalog stream did not
raise, and every line item has a non-falsy variant id, a present quantity,
and a variant found in the catalog with a present inventory at least the
requested quantity.  Contrapositively, every anomaly — empty cart, missing
field, missing variant, absent inventory, or a raised catalog scan — makes
it return false, routing the order into compensation instead of surfacing
an error. -/
theorem stock_check_true_requires_all (c : StockCatalog) (items : List Item)
    (h : check_ali_express_stock c items = true) :
    items ≠ [] ∧ c.raises = false ∧
    ∀ it ∈ items, falsyS it.variant_id = false ∧ it.quantity ≠ none ∧
      ∃ v, findStockVariant c.products (it.variant_id.getD "") = some v ∧
        ∃ inv, v.inventory = some inv ∧ it.quantity.getD 0 ≤ inv := by
  have hne : items ≠ [] := by
    intro h0
    rw [h0] at h
    simp [check_ali_express_stock] at h
  have hie : items.isEmpty = false := by
    cases items with
    | nil => exact absurd rfl hne
    | cons a l => rfl
  have hall : checkStockItems c items = true := by
    simpa [check_ali_express_stock, hie] using h
  have hitems := checkStockItems_spec c items hall
  have hraises : c.raises = false := by
    cases items with
    | nil => exact absurd rfl hne
    | cons it rest =>
        have h2 := (hitems it (by simp)).2
        cases hr : c.raises
        · rfl
        · rw [is_stock_available, if_pos (by rw [hr])] at h2
          exact absurd h2 (by simp)
  refine ⟨hne, hraises, ?_⟩
  intro it hit
  obtain ⟨hfields, hstock⟩ := hitems it hit
  have hfv : falsyS it.variant_id = false := by
    cases hv : falsyS it.variant_id
    · rfl
    · rw [hv] at hfields; simp at hfields
  have hqn : it.quantity ≠ none := by
    intro h0
    rw [h0] at hfields
    simp at hfields
  refine ⟨hfv, hqn, ?_⟩
  rw [is_stock_available, if_neg (by rw [hraises]; simp)] at hstock
  cases hfind : findStockVariant c.products (it.variant_id.getD "") with
  | none => simp [hfind] at hstock
  | some v =>
      rw [hfind] at hstock
      simp at hstock
      cases hinv : v.inventory with
      | none => simp [hinv] at hstock
      | some inv =>
          rw [hinv] at hstock
          simp at hstock
          exact ⟨v, rfl, inv, hinv, hstock⟩

/-- Witness for C9: a one-item order whose variant is stocked makes the
check return true, and the characterization applies to it. -/
theorem stock_check_true_requires_all_witness :
    [(⟨some "V1", some 2, some 10⟩ : Item)] ≠ [] ∧
    stockCatalogV1.raises = false ∧
    ∀ it ∈ [(⟨some "V1", some 2, some 10⟩ : Item)],
      falsyS it.variant_id = false ∧ it.quantity ≠ none ∧
      ∃ v, findStockVariant stockCatalogV1.products (it.variant_id.getD "") = some v ∧
        ∃ inv, v.inventory = some inv ∧ it.quantity.getD 0 ≤ inv :=
  stock_check_true_requires_all stockCatalogV1
    [⟨some "V1", some 2, some 10⟩] (by decide)

/- ------------------------------------------------------------------
The settlement saga (C1, C2, C3, C4).
------------------------------------------------------------------ -/

/-- C1.  Evaluation of the settlement step at the critical-path input: the
order is AUTHORIZED with both identifiers, stock is available, the PayPal
capture succeeds, and the Shopify paid-update raises.  The code routes
into `_cancel_order_flow`: it attempts to void the already captured
authorization, attempts to cancel the Shopify order, sets the final status
to CANCELLED (`Order.Status` has no CRITICAL_INCONSISTENCY member at all),
notifies the customer, and returns the generic 400 cancellation response —
there is no distinct operator alert state. -/
theorem capture_success_shopify_fail_cancels :
    process_order shopifyFailBehavior stockCatalogV1 authOrder =
      ⟨{ authOrder with row := { authOrder.row with status := .CANCELLED } },
       ⟨true, true, true, true, true⟩, .cancelled criticalReason⟩ := by
  decide

/-- The cancellation flow either leaves the status untouched (the
authorization-attribute read or a gateway compensation raised first) or
sets it to CANCELLED. -/
theorem cancel_order_flow_status (b : SagaBehavior) (o : OrderInstance)
    (r : String) (cs : SagaCalls) :
    (cancel_order_flow b o r cs).order.row.status = o.row.status ∨
    (cancel_order_flow b o r cs).order.row.status = .CANCELLED := by
  unfold cancel_order_flow cancelFlowShopify cancelFlowFinish
  cases hpa : o.paypal_authorization_id with
  | none => exact Or.inl rfl
  | some aid =>
      by_cases he : aid = "" <;>
      cases h2 : falsyS o.row.shopify_order_id <;>
      cases h3 : falsyS o.row.order_data.customer_email <;>
      cases hv : b.voidResult <;>
      cases hc : b.cancelResult <;>
      simp [he, h2, h3, hv, hc]

/-- The settlement step either leaves the status unchanged, or (only from
AUTHORIZED) moves it to CAPTURED or CANCELLED. -/
theorem process_order_status (b : SagaBehavior) (c : StockCatalog)
    (o : OrderInstance) :
    (process_order b c o).order.row.status = o.row.status ∨
    (o.row.status = .AUTHORIZED ∧
      ((process_order b c o).order.row.status = .CAPTURED ∨
       (process_order b c o).order.row.status = .CANCELLED)) := by
  by_cases hA : o.row.status = .AUTHORIZED
  · cases hs : check_ali_express_stock c o.row.order_data.line_items
    · have heq : process_order b c o =
          cancel_order_flow b o stockReason SagaCalls.none := by
        unfold process_order
        rw [if_neg (by simp [hA])]
        simp [hs]
      rw [heq]
      rcases cancel_order_flow_status b o stockReason SagaCalls.none with h | h
      · exact Or.inl h
      · exact Or.inr ⟨hA, Or.inr h⟩
    · cases hpa : o.paypal_authorization_id with
      | none =>
          have heq : process_order b c o =
              cancel_order_flow b o paymentReason SagaCalls.none := by
            unfold process_order
            rw [if_neg (by simp [hA])]
            simp [hs, hpa]
          rw [heq]
          rcases cancel_order_flow_status b o paymentReason SagaCalls.none
            with h | h
          · exact Or.inl h
          · exact Or.inr ⟨hA, Or.inr h⟩
      | some aid =>
          cases hcap : b.captureResult with
          | error e =>
              have heq : process_order b c o = cancel_order_flow b o paymentReason
                  ⟨true, false, false, false, false⟩ := by
                unfold process_order
                rw [if_neg (by simp [hA])]
                simp [hs, hpa, hcap, SagaCalls.none]
              rw [heq]
              rcases cancel_order_flow_status b o paymentReason
                  ⟨true, false, false, false, false⟩ with h | h
              · exact Or.inl h
              · exact Or.inr ⟨hA, Or.inr h⟩
          | ok cd =>
              cases hsp : b.shopifyPaidResult with
              | error e =>
                  have heq : process_order b c o = cancel_order_flow b o criticalReason
                      ⟨true, true, false, false, false⟩ := by
                    unfold process_order
                    rw [if_neg (by simp [hA])]
                    simp [hs, hpa, hcap, hsp, SagaCalls.none]
                  rw [heq]
                  rcases cancel_order_flow_status b o criticalReason
                      ⟨true, true, false, false, false⟩ with h | h
                  · exact Or.inl h
                  · exact Or.inr ⟨hA, Or.inr h⟩
              | ok u =>
                  have heq : (process_order b c o).order.row.status = .CAPTURED := by
                    unfold process_order
                    rw [if_neg (by simp [hA])]
                    simp [hs, hpa, hcap, hsp]
                  exact Or.inr ⟨hA, Or.inl heq⟩
  · left
    unfold process_order
    rw [if_pos hA]

/-- C2 counterexample: the cancel handler applied to an order already in
the terminal CAPTURED state sets it to CANCELLED — an edge outside the
claimed legal set — instead of rejecting the operation. -/
theorem cancel_handler_escapes_terminal_state :
    (paypal_cancel capturedOrder).1.status = .CANCELLED ∧
    capturedOrder.row.status = .CAPTURED ∧
    claimAllowedEdge .CAPTURED .CANCELLED = false := by
  decide

/-- C2 (amended).  The settlement endpoint acts only on AUTHORIZED orders
(any other status yields a 404 with the order unchanged and no gateway
call), and from AUTHORIZED it can only keep the status or move it to
CAPTURED or CANCELLED; but the cancel handler sets any found order to
CANCELLED and the success path of the return handler sets any found order
to AUTHORIZED, regardless of the current status, so edges out of the
terminal states are not rejected. -/
theorem handler_transition_characterization (o : OrderInstance)
    (b : SagaBehavior) (c : StockCatalog) :
    (o.row.status ≠ .AUTHORIZED →
      process_order b c o = ⟨o, SagaCalls.none, .notFound⟩) ∧
    ((process_order b c o).order.row.status = o.row.status ∨
      (o.row.status = .AUTHORIZED ∧
        ((process_order b c o).order.row.status = .CAPTURED ∨
         (process_order b c o).order.row.status = .CANCELLED))) ∧
    (paypal_cancel o).1.status = .CANCELLED ∧
    ∀ (d : AuthDetails) (aid : String) (so : ShopifyOrderResp)
      (sink : Except Unit Unit), d.authorization_id = some aid →
      (paypal_return o (.ok d) (.ok so) sink).1.status = .AUTHORIZED := by
  refine ⟨?_, process_order_status b c o, rfl, ?_⟩
  · intro h
    unfold process_order
    rw [if_pos h]
  · intro d aid so sink hd
    simp [paypal_return, hd, OrderInstance.save]

/-- Witness for C2 (amended), at a CAPTURED order: settlement is refused
with a 404 and no call, the cancel handler still forces CANCELLED, and the
return handler success path forces AUTHORIZED. -/
theorem handler_transition_characterization_witness :
    process_order okBehavior stockCatalogV1 capturedOrder =
      ⟨capturedOrder, SagaCalls.none, .notFound⟩ ∧
    (paypal_cancel capturedOrder).1.status = .CANCELLED ∧
    (paypal_return capturedOrder (.ok ⟨some "A-9"⟩) (.ok ⟨"S-9", 9⟩)
      (.ok ())).1.status = .AUTHORIZED := by
  have h := handler_transition_characterization capturedOrder okBehavior stockCatalogV1
  exact ⟨h.1 (by decide), h.2.2.1,
    h.2.2.2 ⟨some "A-9"⟩ "A-9" ⟨"S-9", 9⟩ (.ok ()) rfl⟩

/-- C3 counterexample: settlement of an AUTHORIZED order whose stock
re-check fails, with a raising void call: the void is attempted but the
Shopify cancellation and the notification are skipped and the status stays
AUTHORIZED (not CANCELLED), while the 400 cancellation response is still
returned. -/
theorem void_failure_skips_remaining_compensation :
    (process_order voidFailBehavior emptyStockCatalog authOrderNoItems).calls.voidCalled
        = true ∧
    (process_order voidFailBehavior emptyStockCatalog authOrderNoItems).calls.cancelCalled
        = false ∧
    (process_order voidFailBehavior emptyStockCatalog authOrderNoItems).calls.notifyCalled
        = false ∧
    (process_order voidFailBehavior emptyStockCatalog authOrderNoItems).order.row.status
        = .AUTHORIZED ∧
    (process_order voidFailBehavior emptyStockCatalog authOrderNoItems).response
        = .cancelled stockReason := by
  decide

/-- C3 (amended).  On a failed stock re-check the compensation sub-steps
run sequentially inside one error boundary, and the first step already
reads the authorization attribute.  On a freshly fetched instance the
attribute is absent, that read raises, and every sub-step is skipped:
no void, no Shopify cancel, no notification, status left AUTHORIZED, only
the 400 response returned.  When the attribute is present (and truthy)
and neither gateway compensation raises, all sub-steps are attempted —
void, Shopify cancel exactly when a commerce order id exists, status
CANCELLED, notification exactly when a customer email exists; an earlier
raise skips all later sub-steps (see the counterexample). -/
theorem stock_fail_compensation_paths (b : SagaBehavior)
    (c : StockCatalog) (o : OrderInstance)
    (hst : o.row.status = .AUTHORIZED)
    (hstock : check_ali_express_stock c o.row.order_data.line_items = false) :
    (o.paypal_authorization_id = none →
      process_order b c o = ⟨o, SagaCalls.none, .cancelled stockReason⟩) ∧
    (∀ aid : String, o.paypal_authorization_id = some aid → aid ≠ "" →
      b.voidResult = .ok () → b.cancelResult = .ok () →
      process_order b c o =
        ⟨{ o with row := { o.row with status := .CANCELLED } },
         ⟨false, false, true, !falsyS o.row.shopify_order_id,
          !falsyS o.row.order_data.customer_email⟩,
         .cancelled stockReason⟩) := by
  have heq : process_order b c o =
      cancel_order_flow b o stockReason SagaCalls.none := by
    unfold process_order
    rw [if_neg (by simp [hst])]
    simp [hstock]
  constructor
  · intro hpa
    rw [heq]
    unfold cancel_order_flow
    rw [hpa]
  · intro aid hpa htr hvoid hcancel
    rw [heq]
    unfold cancel_order_flow cancelFlowShopify cancelFlowFinish
    rw [hpa]
    cases h2 : falsyS o.row.shopify_order_id <;>
    cases h3 : falsyS o.row.order_data.customer_email <;>
    simp [htr, h2, h3, hvoid, hcancel, SagaCalls.none]

/-- Witness for C3 (amended), applying the theorem on both paths: a
freshly fetched AUTHORIZED order (authorization attribute absent) aborts
compensation with nothing attempted and status unchanged, while the
attribute-carrying order with non-raising compensations ends CANCELLED
with void, cancel and notification all performed. -/
theorem stock_fail_compensation_paths_witness :
    process_order okBehavior emptyStockCatalog fetchedAuthOrder =
      ⟨fetchedAuthOrder, SagaCalls.none, .cancelled stockReason⟩ ∧
    process_order okBehavior emptyStockCatalog authOrderNoItems =
      ⟨{ authOrderNoItems with
          row := { authOrderNoItems.row with status := .CANCELLED } },
       ⟨false, false, true, !falsyS authOrderNoItems.row.shopify_order_id,
        !falsyS authOrderNoItems.row.order_data.customer_email⟩,
       .cancelled stockReason⟩ :=
  ⟨(stock_fail_compensation_paths okBehavior emptyStockCatalog
      fetchedAuthOrder rfl (by decide)).1 rfl,
   (stock_fail_compensation_paths okBehavior emptyStockCatalog
      authOrderNoItems rfl (by decide)).2 "AUTH-3" rfl (by decide) rfl rfl⟩

/-- C4 counterexample: a first settlement of an AUTHORIZED order succeeds;
invoking the settlement again on the resulting CAPTURED order makes zero
gateway calls but returns a 404 — not the same result as the first
invocation. -/
theorem settlement_repeat_result_differs :
    (process_order okBehavior stockCatalogV1 authOrder).response = .success ∧
    process_order okBehavior stockCatalogV1
        (process_order okBehavior stockCatalogV1 authOrder).order =
      ⟨(process_order okBehavior stockCatalogV1 authOrder).order,
       SagaCalls.none, .notFound⟩ ∧
    SagaResponse.notFound ≠ SagaResponse.success := by
  decide

/-- C4 (amended).  Re-invoking the settlement step on an order whose
status is not AUTHORIZED (in particular one already CAPTURED) performs
zero gateway calls and leaves the order unchanged, but returns a 404
not-found response rather than the prior result. -/
theorem settlement_non_authorized_guard (b : SagaBehavior) (c : StockCatalog)
    (o : OrderInstance) (h : o.row.status ≠ .AUTHORIZED) :
    process_order b c o = ⟨o, SagaCalls.none, .notFound⟩ := by
  unfold process_order
  rw [if_pos h]

/-- Witness for C4 (amended): the guard at a CAPTURED order. -/
theorem settlement_non_authorized_guard_witness :
    process_order okBehavior stockCatalogV1 capturedOrder =
      ⟨capturedOrder, SagaCalls.none, .notFound⟩ :=
  settlement_non_authorized_guard okBehavior stockCatalogV1 capturedOrder
    (by decide)

/- ------------------------------------------------------------------
The approval-return handler and the audit sink (C5, C8).
------------------------------------------------------------------ -/

/-- C5.  Evaluation of a fully successful approval-return run: the handler
reports success and persists status AUTHORIZED and the Shopify order id,
but the persisted row has no authorization-id column (`models.py` declares
none), so a fresh read of the order — as the settlement step performs —
observes no payment authorization identifier and no commerce order number. -/
theorem authorization_id_lost_on_fresh_read :
    (paypal_return pendingOrder (.ok ⟨some "AUTH-5"⟩) (.ok ⟨"SHO-5", 1005⟩)
        (.ok ())).1.status = .AUTHORIZED ∧
    (paypal_return pendingOrder (.ok ⟨some "AUTH-5"⟩) (.ok ⟨"SHO-5", 1005⟩)
        (.ok ())).2.1 = .success ∧
    (OrderRow.fetch (paypal_return pendingOrder (.ok ⟨some "AUTH-5"⟩)
        (.ok ⟨"SHO-5", 1005⟩) (.ok ())).1).paypal_authorization_id = none ∧
    (OrderRow.fetch (paypal_return pendingOrder (.ok ⟨some "AUTH-5"⟩)
        (.ok ⟨"SHO-5", 1005⟩) (.ok ())).1).shopify_order_number = none ∧
    (paypal_return pendingOrder (.ok ⟨some "AUTH-5"⟩) (.ok ⟨"SHO-5", 1005⟩)
        (.ok ())).1.shopify_order_id = some "SHO-5" := by
  decide

/-- C8.  The audit write is fire-and-forget: the persisted row and the
redirect of the approval-return handler are identical whatever the
Firestore write does, and on the success path the handler still ends with
status AUTHORIZED and the success redirect even when the audit write
raises. -/
theorem audit_failure_never_fails_saga (o : OrderInstance)
    (auth : Except Unit AuthDetails) (sc : Except Unit ShopifyOrderResp)
    (sink : Except Unit Unit) :
    ((paypal_return o auth sc sink).1 = (paypal_return o auth sc (.ok ())).1 ∧
     (paypal_return o auth sc sink).2.1 =
       (paypal_return o auth sc (.ok ())).2.1) ∧
    ∀ (d : AuthDetails) (aid : String) (so : ShopifyOrderResp),
      auth = .ok d → d.authorization_id = some aid → sc = .ok so →
      (paypal_return o auth sc sink).2.1 = .success ∧
      (paypal_return o auth sc sink).1.status = .AUTHORIZED := by
  constructor
  · cases auth with
    | error e => simp [paypal_return]
    | ok d =>
        cases hd : d.authorization_id with
        | none => simp [paypal_return, hd]
        | some aid =>
            cases sc with
            | error e => simp [paypal_return, hd]
            | ok so => simp [paypal_return, hd, OrderInstance.save]
  · intro d aid so hauth hd hsc
    subst hauth
    subst hsc
    simp [paypal_return, hd, OrderInstance.save]

/-- Witness for C8: a concrete success-path run whose audit write raises
still persists AUTHORIZED and redirects to the success page, matching the
run with a succeeding audit write. -/
theorem audit_failure_never_fails_saga_witness :
    ((paypal_return pendingOrder (.ok ⟨some "AUTH-8"⟩) (.ok ⟨"SHO-8", 1008⟩)
        (.error ())).1 =
      (paypal_return pendingOrder (.ok ⟨some "AUTH-8"⟩) (.ok ⟨"SHO-8", 1008⟩)
        (.ok ())).1 ∧
     (paypal_return pendingOrder (.ok ⟨some "AUTH-8"⟩) (.ok ⟨"SHO-8", 1008⟩)
        (.error ())).2.1 =
      (paypal_return pendingOrder (.ok ⟨some "AUTH-8"⟩) (.ok ⟨"SHO-8", 1008⟩)
        (.ok ())).2.1) ∧
    (paypal_return pendingOrder (.ok ⟨some "AUTH-8"⟩) (.ok ⟨"SHO-8", 1008⟩)
        (.error ())).2.1 = .success ∧
    (paypal_return pendingOrder (.ok ⟨some "AUTH-8"⟩) (.ok ⟨"SHO-8", 1008⟩)
        (.error ())).1.status = .AUTHORIZED := by
  have h := audit_failure_never_fails_saga pendingOrder (.ok ⟨some "AUTH-8"⟩)
    (.ok ⟨"SHO-8", 1008⟩) (.error ())
  exact ⟨h.1, h.2 ⟨some "AUTH-8"⟩ "AUTH-8" ⟨"SHO-8", 1008⟩ rfl rfl rfl⟩

end ECom
